import Mathlib

/-!
Verification of the Capstone packet-capture core: a shallow embedding of
`backend/packet_capture/display_packet.py` (packet normalization and the two
renderers) and `backend/packet_capture/capture_packets.py` (the capture worker
and session controller), with theorems settling the specification claims.
-/

namespace Capstone

/-! ## Frame model

A pyshark packet is duck-typed: each protocol layer is an attribute that may or
may not be present (`hasattr`), and each layer exposes named sub-fields that may
or may not be present.  We model a structurally valid frame as a record of
optional layers; layer sub-fields that the code reads unconditionally after
detecting the layer (e.g. `packet.eth.src`) are non-optional, those read behind
their own `hasattr` guard are `Option`s.  The HTTP layer is probed for many
alternate attribute names, so it is modelled as an attribute-lookup function. -/

structure EthL where
  src : String
  dst : String
deriving DecidableEq

structure ArpL where
  src_proto_ipv4 : Option String := none
  src_hw_mac : Option String := none
  dst_proto_ipv4 : Option String := none
  dst_hw_mac : Option String := none
  opcode : Option String := none
deriving DecidableEq

structure IpL where
  src : String
  dst : String
  ttl : Option Int := none
deriving DecidableEq

structure Ipv6L where
  src : String
  dst : String
  hlim : Option Int := none
deriving DecidableEq

structure TcpL where
  srcport : Int
  dstport : Int
  flags_syn : Option String := none
  flags_ack : Option String := none
  flags_fin : Option String := none
  flags_push : Option String := none
  flags_reset : Option String := none
  flags_urg : Option String := none
deriving DecidableEq

structure UdpL where
  srcport : Int
  dstport : Int
deriving DecidableEq

structure IcmpL where
  type : Option String := none
deriving DecidableEq

structure DnsL where
  qry_name : Option String := none
  qry_type : Option String := none
  a : Option String := none
deriving DecidableEq

structure TlsL where
  handshake_type : Option String := none
  handshake_extensions_server_name : Option String := none
deriving DecidableEq

structure Frame where
  sniff_time : String
  length : Int
  layers : List String
  highest_layer : String
  /-- `bytes(packet.get_raw_packet()).hex()`; `none` models the `try/except` path
  where raw extraction fails. -/
  raw : Option String := none
  eth : Option EthL := none
  arp : Option ArpL := none
  ip : Option IpL := none
  ipv6 : Option Ipv6L := none
  tcp : Option TcpL := none
  udp : Option UdpL := none
  icmp : Option IcmpL := none
  icmpv6 : Bool := false
  http : Option (String → Option String) := none
  dns : Option DnsL := none
  tls : Option TlsL := none

/-! ## PacketInfo (`display_packet.PacketInfo` dataclass) -/

structure PacketInfo where
  number : Int
  timestamp : String
  length : Int
  layers : List String
  protocol : String
  src_ip : Option String := none
  dst_ip : Option String := none
  is_ipv6 : Bool := false
  ttl : Option Int := none
  src_port : Option Int := none
  dst_port : Option Int := none
  tcp_flags : List String := []
  arp_sender_ip : Option String := none
  arp_sender_mac : Option String := none
  arp_target_ip : Option String := none
  arp_target_mac : Option String := none
  arp_type : Option String := none
  src_mac : Option String := none
  dst_mac : Option String := none
  raw_hex : Option String := none
  application : Option String := none
  /-- `application_details : Dict[str, str]`, insertion-ordered. -/
  application_details : List (String × String) := []
deriving DecidableEq

/-! ## Parsing (`parse_packet` and helpers) -/

/-- ICMP type lookup table with the `"Type " ++ code` fallback. -/
def icmpTypeStr (t : String) : String :=
  if t = "8" then "Echo Request (Ping)"
  else if t = "0" then "Echo Reply (Pong)"
  else if t = "3" then "Destination Unreachable"
  else if t = "11" then "Time Exceeded"
  else "Type " ++ t

/-- DNS query-type lookup table with the `"Type " ++ code` fallback. -/
def dnsQryTypeStr (t : String) : String :=
  if t = "1" then "A (IPv4)"
  else if t = "28" then "AAAA (IPv6)"
  else if t = "5" then "CNAME"
  else if t = "15" then "MX (Mail)"
  else if t = "16" then "TXT"
  else "Type " ++ t

/-- TLS handshake-type lookup table with the `"Type " ++ code` fallback. -/
def tlsHandshakeStr (t : String) : String :=
  if t = "1" then "Client Hello"
  else if t = "2" then "Server Hello"
  else if t = "11" then "Certificate"
  else if t = "16" then "Client Key Exchange"
  else "Type " ++ t

/-- `for attr in [...]: if hasattr(layer, attr): take it; break` — first present
attribute among the candidates. -/
def firstAttr (l : String → Option String) : List String → Option String
  | [] => none
  | a :: rest =>
    match l a with
    | some v => some v
    | none => firstAttr l rest

/-- `_parse_transport_layer` (leading underscore dropped). -/
def parse_transport_layer (p : Frame) (info : PacketInfo) : PacketInfo :=
  match p.tcp with
  | some t =>
    let flags : List String :=
      (if t.flags_syn = some "1" then ["SYN"] else []) ++
      (if t.flags_ack = some "1" then ["ACK"] else []) ++
      (if t.flags_fin = some "1" then ["FIN"] else []) ++
      (if t.flags_push = some "1" then ["PSH"] else []) ++
      (if t.flags_reset = some "1" then ["RST"] else []) ++
      (if t.flags_urg = some "1" then ["URG"] else [])
    { info with
      protocol := "TCP"
      src_port := some t.srcport
      dst_port := some t.dstport
      tcp_flags := info.tcp_flags ++ flags }
  | none =>
  match p.udp with
  | some u =>
    { info with protocol := "UDP", src_port := some u.srcport, dst_port := some u.dstport }
  | none =>
  match p.icmp with
  | some ic =>
    let info := { info with protocol := "ICMP" }
    match ic.type with
    | some t =>
      { info with application_details := info.application_details ++ [("icmp_type", icmpTypeStr t)] }
    | none => info
  | none =>
    if p.icmpv6 then { info with protocol := "ICMPv6" } else info

/-- User-agent truncation: over 50 characters, keep 47 and add an ellipsis. -/
def truncUA (ua : String) : String :=
  if ua.length > 50 then ua.take 47 ++ "..." else ua

/-- `_parse_application_layer` (leading underscore dropped). -/
def parse_application_layer (p : Frame) (info : PacketInfo) : PacketInfo :=
  match p.http with
  | some h =>
    let info := { info with application := some "HTTP" }
    let info :=
      match firstAttr h ["request_method", "method"] with
      | some v => { info with application_details := info.application_details ++ [("method", v)] }
      | none => info
    let info :=
      match firstAttr h ["host", "request_host"] with
      | some v => { info with application_details := info.application_details ++ [("host", v)] }
      | none => info
    let info :=
      match firstAttr h ["request_uri", "request_full_uri", "uri", "request_line"] with
      | some v => { info with application_details := info.application_details ++ [("uri", v)] }
      | none => info
    let info :=
      match firstAttr h ["response_code", "response_status_code", "status_code"] with
      | some v =>
        { info with application_details := info.application_details ++ [("response_code", v)] }
      | none => info
    let info :=
      match firstAttr h ["user_agent", "request_user_agent"] with
      | some ua =>
        { info with application_details := info.application_details ++ [("user_agent", truncUA ua)] }
      | none => info
    let info :=
      match firstAttr h ["content_type", "response_content_type"] with
      | some v =>
        { info with application_details := info.application_details ++ [("content_type", v)] }
      | none => info
    info
  | none =>
  match p.dns with
  | some d =>
    let info := { info with application := some "DNS" }
    let info :=
      match d.qry_name with
      | some v => { info with application_details := info.application_details ++ [("query", v)] }
      | none => info
    let info :=
      match d.qry_type with
      | some t =>
        { info with application_details := info.application_details ++ [("query_type", dnsQryTypeStr t)] }
      | none => info
    let info :=
      match d.a with
      | some v => { info with application_details := info.application_details ++ [("answer", v)] }
      | none => info
    info
  | none =>
  match p.tls with
  | some t =>
    let info := { info with application := some "TLS/SSL" }
    let info :=
      match t.handshake_type with
      | some ht =>
        { info with application_details := info.application_details ++ [("handshake", tlsHandshakeStr ht)] }
      | none => info
    let info :=
      match t.handshake_extensions_server_name with
      | some v => { info with application_details := info.application_details ++ [("server_name", v)] }
      | none => info
    info
  | none => info

/-- `parse_packet(packet, number) -> PacketInfo`. -/
def parse_packet (p : Frame) (number : Int) : PacketInfo :=
  let info : PacketInfo :=
    { number := number
      timestamp := p.sniff_time
      length := p.length
      layers := p.layers
      protocol := p.highest_layer }
  let info :=
    match p.eth with
    | some e => { info with src_mac := some e.src, dst_mac := some e.dst }
    | none => info
  let info := { info with raw_hex := p.raw }
  match p.arp with
  | some a =>
    let info := { info with protocol := "ARP" }
    let info :=
      match a.src_proto_ipv4 with
      | some v => { info with arp_sender_ip := some v }
      | none => info
    let info :=
      match a.src_hw_mac with
      | some v => { info with arp_sender_mac := some v }
      | none => info
    let info :=
      match a.dst_proto_ipv4 with
      | some v => { info with arp_target_ip := some v }
      | none => info
    let info :=
      match a.dst_hw_mac with
      | some v => { info with arp_target_mac := some v }
      | none => info
    let info :=
      match a.opcode with
      | some op =>
        { info with
          arp_type := some (if op = "1" then "Request" else if op = "2" then "Reply" else op) }
      | none => info
    info
  | none =>
  match p.ip with
  | some ipl =>
    let info := { info with src_ip := some ipl.src, dst_ip := some ipl.dst }
    let info :=
      match ipl.ttl with
      | some t => { info with ttl := some t }
      | none => info
    parse_application_layer p (parse_transport_layer p info)
  | none =>
  match p.ipv6 with
  | some i6 =>
    let info := { info with src_ip := some i6.src, dst_ip := some i6.dst, is_ipv6 := true }
    let info :=
      match i6.hlim with
      | some t => { info with ttl := some t }
      | none => info
    parse_application_layer p (parse_transport_layer p info)
  | none => info

/-! ## Output formatters -/

/-- Python truthiness of an `Optional[str]`: `None` and `""` are falsy. -/
def strTruthy : Option String → Bool
  | some s => !(s == "")
  | none => false

/-- Python truthiness of an `Optional[int]`: `None` and `0` are falsy. -/
def intTruthy : Option Int → Bool
  | some n => !(n == 0)
  | none => false

structure EthernetGroup where
  src_mac : Option String
  dst_mac : Option String
deriving DecidableEq

structure NetworkGroup where
  src_ip : Option String
  dst_ip : Option String
  is_ipv6 : Bool
  ttl : Option Int
deriving DecidableEq

structure TransportGroup where
  src_port : Option Int
  dst_port : Option Int
  tcp_flags : List String
deriving DecidableEq

structure ArpGroup where
  sender_ip : Option String
  sender_mac : Option String
  target_ip : Option String
  target_mac : Option String
  type : Option String
deriving DecidableEq

structure ApplicationGroup where
  name : Option String
  details : List (String × String)
deriving DecidableEq

/-- The nested mapping produced by `format_packet_dict`: each optional group is a
key bound either to a sub-mapping (`some`) or to `null` (`none`). -/
structure PacketDict where
  number : Int
  timestamp : String
  length : Int
  layers : List String
  protocol : String
  ethernet : Option EthernetGroup
  network : Option NetworkGroup
  transport : Option TransportGroup
  arp : Option ArpGroup
  application : Option ApplicationGroup
  raw_hex : Option String
deriving DecidableEq

/-- `format_packet_dict(info) -> Dict`.  Group presence is decided by Python
truthiness of one designated field per group, exactly as in the source. -/
def format_packet_dict (info : PacketInfo) : PacketDict :=
  { number := info.number
    timestamp := info.timestamp
    length := info.length
    layers := info.layers
    protocol := info.protocol
    ethernet :=
      if strTruthy info.src_mac then
        some { src_mac := info.src_mac, dst_mac := info.dst_mac }
      else none
    network :=
      if strTruthy info.src_ip then
        some { src_ip := info.src_ip, dst_ip := info.dst_ip, is_ipv6 := info.is_ipv6,
               ttl := info.ttl }
      else none
    transport :=
      if intTruthy info.src_port then
        some { src_port := info.src_port, dst_port := info.dst_port,
               tcp_flags := info.tcp_flags }
      else none
    arp :=
      if strTruthy info.arp_sender_ip then
        some { sender_ip := info.arp_sender_ip, sender_mac := info.arp_sender_mac,
               target_ip := info.arp_target_ip, target_mac := info.arp_target_mac,
               type := info.arp_type }
      else none
    application :=
      if strTruthy info.application then
        some { name := info.application, details := info.application_details }
      else none
    raw_hex := info.raw_hex }

/-- Python `str(...)` applied to an `Optional[str]` inside an f-string. -/
def pyOptStr : Option String → String
  | some s => s
  | none => "None"

/-- Python `str(...)` applied to an `Optional[int]` inside an f-string. -/
def pyOptInt : Option Int → String
  | some n => toString n
  | none => "None"

/-- Python `repr` of a list of strings, as an f-string renders `info.layers`. -/
def pyReprStrList (xs : List String) : String :=
  "[" ++ String.intercalate ", " (xs.map (fun s => "\x27" ++ s ++ "\x27")) ++ "]"

/-- `dict.get(key, default)` over the insertion-ordered detail mapping. -/
def dictGet (d : List (String × String)) (key dflt : String) : String :=
  match d.find? (fun kv => kv.1 == key) with
  | some kv => kv.2
  | none => dflt

/-- The list of lines accumulated by `format_packet_text` before joining. -/
def format_packet_text_lines (info : PacketInfo) : List String :=
  let header :=
    ["\n[Packet #" ++ toString info.number ++ "] Time: " ++ info.timestamp ++
       " | Length: " ++ toString info.length ++ " bytes",
     "  Layers: " ++ pyReprStrList info.layers]
  let body :=
    if info.protocol = "ARP" then
      ["  Protocol: ARP"] ++
      (if strTruthy info.arp_sender_ip then
        ["  Sender: " ++ pyOptStr info.arp_sender_ip ++ " (" ++ pyOptStr info.arp_sender_mac ++ ")"]
       else []) ++
      (if strTruthy info.arp_target_ip then
        ["  Target: " ++ pyOptStr info.arp_target_ip ++ " (" ++ pyOptStr info.arp_target_mac ++ ")"]
       else []) ++
      (if strTruthy info.arp_type then ["  Type: " ++ pyOptStr info.arp_type] else [])
    else if strTruthy info.src_ip && strTruthy info.dst_ip then
      (let ip_version := if info.is_ipv6 then "IPv6" else "IP"
       ["  " ++ ip_version ++ ": " ++ pyOptStr info.src_ip ++ " -> " ++ pyOptStr info.dst_ip]) ++
      (if info.protocol = "TCP" ∨ info.protocol = "UDP" then
        ["  Protocol: " ++ info.protocol ++ " | Ports: " ++ pyOptInt info.src_port ++
           " -> " ++ pyOptInt info.dst_port] ++
        (if info.tcp_flags ≠ [] then
          ["  TCP Flags: " ++ String.intercalate ", " info.tcp_flags]
         else [])
       else if info.protocol = "ICMP" ∨ info.protocol = "ICMPv6" then
        (let icmp_detail := dictGet info.application_details "icmp_type" ""
         if icmp_detail ≠ "" then
           ["  Protocol: " ++ info.protocol ++ " | " ++ icmp_detail]
         else
           ["  Protocol: " ++ info.protocol])
       else []) ++
      (if strTruthy info.application then
        ["  Application: " ++ pyOptStr info.application] ++
        (info.application_details.filter (fun kv => kv.1 ≠ "icmp_type")).map
          (fun kv => "    " ++ kv.1 ++ ": " ++ kv.2)
       else [])
    else
      ["  Protocol: " ++ info.protocol]
  header ++ body

/-- `format_packet_text(info) -> str`: the joined multi-line rendering. -/
def format_packet_text (info : PacketInfo) : String :=
  String.intercalate "\n" (format_packet_text_lines info)

/-! ## Capture session engine (`capture_packets.py`)

The worker loop of `PacketCapture._capture_worker` is embedded as a recursion
over the sequence of events produced by `sniff_continuously()`: each event is
either a frame (identified by an id, since the loop itself never inspects frame
contents) or an exception raised by the blocking iterator.  The shared stop
event `_stop_event` has two writers: the callback / controller thread calling
`stop()` (modelled by `CbOutcome.callsStop`, folded into `internalStop`), and an
external schedule `ext : Nat → Bool` giving the externally-set component of the
event at each successive read (reads are numbered by `checkIdx`).  The callback
is modelled by its observable outcome per invocation number. -/

inductive SItem where
  | pkt (id : Nat)
  | ierr (msg : String)
deriving DecidableEq

/-- Observable behaviour of one `_packet_callback` invocation: whether it called
`stop()` while running, and whether it raised (with the recorded message). -/
structure CbOutcome where
  callsStop : Bool
  raises : Option String
deriving DecidableEq

/-- Worker-visible mutable state during the loop. -/
structure WorkerSt where
  count : Nat
  seqs : List Nat
  buffer : List Nat
  internalStop : Bool
  checkIdx : Nat
deriving DecidableEq

/-- Result of the worker thread: final counter, the sequence numbers passed to
the callback in order, the `_packets` buffer contents (frame ids, in order), the
callback-driven component of the stop event, the number of stop-event reads
performed, and `_error_msg`. -/
structure WorkerResult where
  count : Nat
  seqs : List Nat
  buffer : List Nat
  internalStop : Bool
  finalCheckIdx : Nat
  err : Option String
deriving DecidableEq

/-- The `for packet in self.capture.sniff_continuously():` loop body of
`_capture_worker`, including the outer `except` handler for iterator
exceptions.  Faithful control flow:
top-of-loop stop check → increment counter → append to `_packets` → invoke
callback (recording its error and breaking if it raises) → post-callback stop
check → packet-count limit check. -/
def captureLoop (ext : Nat → Bool) (cb : Nat → CbOutcome) (packetCount : Nat) :
    List SItem → WorkerSt → WorkerResult
  | [], s => ⟨s.count, s.seqs, s.buffer, s.internalStop, s.checkIdx, none⟩
  | item :: rest, s =>
    let stopped1 := s.internalStop || ext s.checkIdx
    let s1 : WorkerSt := { s with checkIdx := s.checkIdx + 1 }
    if stopped1 then
      ⟨s1.count, s1.seqs, s1.buffer, s1.internalStop, s1.checkIdx, none⟩
    else
      match item with
      | .ierr msg =>
        let stopped2 := s1.internalStop || ext s1.checkIdx
        let s2 : WorkerSt := { s1 with checkIdx := s1.checkIdx + 1 }
        ⟨s2.count, s2.seqs, s2.buffer, s2.internalStop, s2.checkIdx,
          if stopped2 then none else some msg⟩
      | .pkt id =>
        let n := s1.count + 1
        let s2 : WorkerSt :=
          { s1 with count := n, buffer := s1.buffer ++ [id], seqs := s1.seqs ++ [n] }
        let out := cb n
        let s3 : WorkerSt := { s2 with internalStop := s2.internalStop || out.callsStop }
        match out.raises with
        | some m => ⟨s3.count, s3.seqs, s3.buffer, s3.internalStop, s3.checkIdx, some m⟩
        | none =>
          let stopped3 := s3.internalStop || ext s3.checkIdx
          let s4 : WorkerSt := { s3 with checkIdx := s3.checkIdx + 1 }
          if stopped3 then
            ⟨s4.count, s4.seqs, s4.buffer, s4.internalStop, s4.checkIdx, none⟩
          else if packetCount > 0 && n ≥ packetCount then
            ⟨s4.count, s4.seqs, s4.buffer, s4.internalStop, s4.checkIdx, none⟩
          else
            captureLoop ext cb packetCount rest s4

/-- `_capture_worker`: open the pyshark handle (`openErr = some m` models
`pyshark.LiveCapture(...)` raising), then run the sniffing loop.  An open
failure reaches the outer `except`, whose handler records the message only if
the stop event is not already set. -/
def runWorker (openErr : Option String) (src : List SItem) (cb : Nat → CbOutcome)
    (ext : Nat → Bool) (packetCount : Nat) : WorkerResult :=
  match openErr with
  | some m => ⟨0, [], [], false, 1, if ext 0 then none else some m⟩
  | none => captureLoop ext cb packetCount src ⟨0, [], [], false, 0⟩

/-- `CaptureStats` (the fields the claims are about; `elapsed_time` is a
wall-clock measurement outside the embedding). -/
structure CaptureStats where
  packets_captured : Nat
  stopped_by_user : Bool
  stopped_by_timeout : Bool
  error : Option String
deriving DecidableEq

/-- `PacketCapture.start`: reset state, run the worker, classify the outcome.
`timedOut` is the environment fact that `capture_thread.join(timeout)` expired
while the worker was still running; in that case `start` itself sets the stop
event before the final classification read, so the event value at the final
`is_set()` check is `timedOut || internalStop || ext finalCheckIdx`.
`stopped_by_user` is set iff that final read is true and the timeout did not
fire. -/
def runStart (openErr : Option String) (src : List SItem) (cb : Nat → CbOutcome)
    (ext : Nat → Bool) (packetCount : Nat) (timedOut : Bool) : CaptureStats :=
  let r := runWorker openErr src cb ext packetCount
  let finalEvent := timedOut || r.internalStop || ext r.finalCheckIdx
  { packets_captured := r.count
    stopped_by_user := finalEvent && !timedOut
    stopped_by_timeout := timedOut
    error := r.err }

/-- Number of frame events (as opposed to iterator exceptions) in a source. -/
def countPkts : List SItem → Nat
  | [] => 0
  | .pkt _ :: rest => countPkts rest + 1
  | .ierr _ :: rest => countPkts rest

/-- `[1, 2, ..., n]`: the expected sequence-number trace. -/
def seqUpTo (n : Nat) : List Nat :=
  (List.range n).map (· + 1)

/-- Whether a source event is a frame. -/
def isPkt : SItem → Bool
  | .pkt _ => true
  | .ierr _ => false

/-! ## Layer-detection and group-presence predicates -/

/-- A recognized transport layer is detected on the frame. -/
def transportDetected (p : Frame) : Bool :=
  p.tcp.isSome || p.udp.isSome || p.icmp.isSome || p.icmpv6

/-- An application layer is detected on the frame. -/
def applicationDetected (p : Frame) : Bool :=
  p.http.isSome || p.dns.isSome || p.tls.isSome

/-- Actual gate of the serialized `ethernet` group: a detected Ethernet layer
with a truthy (non-empty) source MAC. -/
def ethGroupPresent (p : Frame) : Bool :=
  match p.eth with
  | some e => !(e.src == "")
  | none => false

/-- Actual gate of the serialized `network` group: no ARP layer, and the
IPv4/IPv6 branch that ran stored a truthy source address. -/
def netGroupPresent (p : Frame) : Bool :=
  p.arp.isNone &&
    (match p.ip with
     | some l => !(l.src == "")
     | none =>
       match p.ipv6 with
       | some l => !(l.src == "")
       | none => false)

/-- Actual gate of the serialized `transport` group: transport parsing ran (no
ARP, some IP layer) and the TCP/UDP branch stored a truthy (non-zero) source
port.  ICMP/ICMPv6 frames never store a port, so they never yield the group. -/
def transGroupPresent (p : Frame) : Bool :=
  p.arp.isNone && (p.ip.isSome || p.ipv6.isSome) &&
    (match p.tcp with
     | some t => !(t.srcport == 0)
     | none =>
       match p.udp with
       | some u => !(u.srcport == 0)
       | none => false)

/-- Actual gate of the serialized `arp` group: an ARP layer carrying a truthy
`src_proto_ipv4` attribute. -/
def arpGroupPresent (p : Frame) : Bool :=
  match p.arp with
  | some a =>
    (match a.src_proto_ipv4 with
     | some v => !(v == "")
     | none => false)
  | none => false

/-- Actual gate of the serialized `application` group: application parsing ran
(no ARP, some IP layer) and an HTTP/DNS/TLS layer was detected. -/
def appGroupPresent (p : Frame) : Bool :=
  p.arp.isNone && (p.ip.isSome || p.ipv6.isSome) && applicationDetected p

/-! ## Concrete inputs used by counterexamples and witnesses -/

/-- A callback that never calls `stop()` and never raises. -/
def cbOk : Nat → CbOutcome := fun _ => ⟨false, none⟩

/-- A stop-event schedule on which `stop()` is never called externally. -/
def extFalse : Nat → Bool := fun _ => false

/-- A structurally valid TCP/IPv4 frame whose TCP source port is 0. -/
def tcpPortZeroFrame : Frame :=
  { sniff_time := "2025-01-01 00:00:00"
    length := 60
    layers := ["eth", "ip", "tcp"]
    highest_layer := "TCP"
    eth := some { src := "aa:bb:cc:dd:ee:01", dst := "aa:bb:cc:dd:ee:02" }
    ip := some { src := "10.0.0.1", dst := "10.0.0.2", ttl := some 64 }
    tcp := some { srcport := 0, dstport := 80 } }

/-- An IPv4 frame carrying an unrecognized upper layer (e.g. GRE): no ARP and
none of TCP/UDP/ICMP/ICMPv6, with the engine reporting `GRE` as highest layer. -/
def greFrame : Frame :=
  { sniff_time := "2025-01-01 00:00:01"
    length := 100
    layers := ["eth", "ip", "gre"]
    highest_layer := "GRE"
    eth := some { src := "aa:bb:cc:dd:ee:01", dst := "aa:bb:cc:dd:ee:02" }
    ip := some { src := "10.0.0.1", dst := "10.0.0.2", ttl := some 64 } }

/-- An ICMP echo-request frame over IPv4, with no application layer. -/
def icmpPingFrame : Frame :=
  { sniff_time := "2025-01-01 00:00:02"
    length := 98
    layers := ["eth", "ip", "icmp"]
    highest_layer := "ICMP"
    eth := some { src := "aa:bb:cc:dd:ee:01", dst := "aa:bb:cc:dd:ee:02" }
    ip := some { src := "10.0.0.1", dst := "10.0.0.2", ttl := some 64 }
    icmp := some { type := some "8" } }

/-- A minimal structurally valid frame on which every optional layer is absent. -/
def bareFrame : Frame :=
  { sniff_time := "2025-01-01 00:00:03"
    length := 42
    layers := ["sll"]
    highest_layer := "SLL" }

/-! ## Derived characterizations of the layer parsers

These auxiliary functions restate what each in-place parser pass computes, so
that `parse_transport_layer` / `parse_application_layer` can be rewritten into
a single record update (`ptl_eq` / `pal_eq` below). -/

/-- Protocol label after the transport pass, given the label it started with. -/
def ptlProtocol (p : Frame) (dflt : String) : String :=
  match p.tcp with
  | some _ => "TCP"
  | none =>
    match p.udp with
    | some _ => "UDP"
    | none =>
      match p.icmp with
      | some _ => "ICMP"
      | none => if p.icmpv6 then "ICMPv6" else dflt

/-- Source port after the transport pass. -/
def ptlSrcPort (p : Frame) (dflt : Option Int) : Option Int :=
  match p.tcp with
  | some t => some t.srcport
  | none =>
    match p.udp with
    | some u => some u.srcport
    | none => dflt

/-- Destination port after the transport pass. -/
def ptlDstPort (p : Frame) (dflt : Option Int) : Option Int :=
  match p.tcp with
  | some t => some t.dstport
  | none =>
    match p.udp with
    | some u => some u.dstport
    | none => dflt

/-- The TCP flag list in the fixed SYN/ACK/FIN/PSH/RST/URG order. -/
def tcpFlagsList (t : TcpL) : List String :=
  (if t.flags_syn = some "1" then ["SYN"] else []) ++
  (if t.flags_ack = some "1" then ["ACK"] else []) ++
  (if t.flags_fin = some "1" then ["FIN"] else []) ++
  (if t.flags_push = some "1" then ["PSH"] else []) ++
  (if t.flags_reset = some "1" then ["RST"] else []) ++
  (if t.flags_urg = some "1" then ["URG"] else [])

/-- Flags appended by the transport pass. -/
def ptlFlags (p : Frame) (dflt : List String) : List String :=
  match p.tcp with
  | some t => dflt ++ tcpFlagsList t
  | none => dflt

/-- Details appended by the transport pass (only the ICMP type entry). -/
def ptlDetails (p : Frame) : List (String × String) :=
  match p.tcp with
  | some _ => []
  | none =>
    match p.udp with
    | some _ => []
    | none =>
      match p.icmp with
      | some ic =>
        (match ic.type with
         | some t => [("icmp_type", icmpTypeStr t)]
         | none => [])
      | none => []

/-- Application name after the application pass. -/
def palApplication (p : Frame) (dflt : Option String) : Option String :=
  match p.http with
  | some _ => some "HTTP"
  | none =>
    match p.dns with
    | some _ => some "DNS"
    | none =>
      match p.tls with
      | some _ => some "TLS/SSL"
      | none => dflt

/-- Details appended by the HTTP branch, in source probe order. -/
def httpDetails (h : String → Option String) : List (String × String) :=
  (match firstAttr h ["request_method", "method"] with
   | some v => [("method", v)]
   | none => []) ++
  (match firstAttr h ["host", "request_host"] with
   | some v => [("host", v)]
   | none => []) ++
  (match firstAttr h ["request_uri", "request_full_uri", "uri", "request_line"] with
   | some v => [("uri", v)]
   | none => []) ++
  (match firstAttr h ["response_code", "response_status_code", "status_code"] with
   | some v => [("response_code", v)]
   | none => []) ++
  (match firstAttr h ["user_agent", "request_user_agent"] with
   | some ua => [("user_agent", truncUA ua)]
   | none => []) ++
  (match firstAttr h ["content_type", "response_content_type"] with
   | some v => [("content_type", v)]
   | none => [])

/-- Details appended by the DNS branch. -/
def dnsDetails (d : DnsL) : List (String × String) :=
  (match d.qry_name with
   | some v => [("query", v)]
   | none => []) ++
  (match d.qry_type with
   | some t => [("query_type", dnsQryTypeStr t)]
   | none => []) ++
  (match d.a with
   | some v => [("answer", v)]
   | none => [])

/-- Details appended by the TLS branch. -/
def tlsDetails (t : TlsL) : List (String × String) :=
  (match t.handshake_type with
   | some ht => [("handshake", tlsHandshakeStr ht)]
   | none => []) ++
  (match t.handshake_extensions_server_name with
   | some v => [("server_name", v)]
   | none => [])

/-- Details appended by the application pass. -/
def palDetails (p : Frame) : List (String × String) :=
  match p.http with
  | some h => httpDetails h
  | none =>
    match p.dns with
    | some d => dnsDetails d
    | none =>
      match p.tls with
      | some t => tlsDetails t
      | none => []

/-- ARP opcode rendering: `"Request"` / `"Reply"` / verbatim. -/
def arpTypeStr (op : String) : String :=
  if op = "1" then "Request" else if op = "2" then "Reply" else op

/-! ## Characterization lemmas for the normalizer -/

/-- The transport pass as a single record update. -/
theorem ptl_eq (p : Frame) (i : PacketInfo) :
    parse_transport_layer p i =
      { i with
        protocol := ptlProtocol p i.protocol
        src_port := ptlSrcPort p i.src_port
        dst_port := ptlDstPort p i.dst_port
        tcp_flags := ptlFlags p i.tcp_flags
        application_details := i.application_details ++ ptlDetails p } := by
  unfold parse_transport_layer ptlProtocol ptlSrcPort ptlDstPort ptlFlags ptlDetails
  (repeat' split) <;> simp_all [tcpFlagsList]

/-- The application pass as a single record update. -/
theorem pal_eq (p : Frame) (i : PacketInfo) :
    parse_application_layer p i =
      { i with
        application := palApplication p i.application
        application_details := i.application_details ++ palDetails p } := by
  unfold parse_application_layer palApplication palDetails httpDetails dnsDetails tlsDetails
  (repeat' split) <;> simp_all [List.append_assoc]

set_option maxHeartbeats 2000000 in
/-- Full characterization of `parse_packet`: every output field as a function of
the input frame. -/
theorem parse_packet_eq (p : Frame) (n : Int) :
    parse_packet p n =
      { number := n
        timestamp := p.sniff_time
        length := p.length
        layers := p.layers
        protocol :=
          match p.arp, p.ip, p.ipv6 with
          | some _, _, _ => "ARP"
          | none, none, none => p.highest_layer
          | _, _, _ => ptlProtocol p p.highest_layer
        src_ip :=
          match p.arp, p.ip, p.ipv6 with
          | some _, _, _ => none
          | none, some l, _ => some l.src
          | none, none, some l => some l.src
          | none, none, none => none
        dst_ip :=
          match p.arp, p.ip, p.ipv6 with
          | some _, _, _ => none
          | none, some l, _ => some l.dst
          | none, none, some l => some l.dst
          | none, none, none => none
        is_ipv6 :=
          match p.arp, p.ip, p.ipv6 with
          | none, none, some _ => true
          | _, _, _ => false
        ttl :=
          match p.arp, p.ip, p.ipv6 with
          | some _, _, _ => none
          | none, some l, _ => l.ttl
          | none, none, some l => l.hlim
          | none, none, none => none
        src_port :=
          match p.arp, p.ip, p.ipv6 with
          | some _, _, _ => none
          | none, none, none => none
          | _, _, _ => ptlSrcPort p none
        dst_port :=
          match p.arp, p.ip, p.ipv6 with
          | some _, _, _ => none
          | none, none, none => none
          | _, _, _ => ptlDstPort p none
        tcp_flags :=
          match p.arp, p.ip, p.ipv6 with
          | some _, _, _ => []
          | none, none, none => []
          | _, _, _ => ptlFlags p []
        arp_sender_ip := p.arp.bind (fun a => a.src_proto_ipv4)
        arp_sender_mac := p.arp.bind (fun a => a.src_hw_mac)
        arp_target_ip := p.arp.bind (fun a => a.dst_proto_ipv4)
        arp_target_mac := p.arp.bind (fun a => a.dst_hw_mac)
        arp_type := p.arp.bind (fun a => a.opcode.map arpTypeStr)
        src_mac := p.eth.map (fun e => e.src)
        dst_mac := p.eth.map (fun e => e.dst)
        raw_hex := p.raw
        application :=
          match p.arp, p.ip, p.ipv6 with
          | some _, _, _ => none
          | none, none, none => none
          | _, _, _ => palApplication p none
        application_details :=
          match p.arp, p.ip, p.ipv6 with
          | some _, _, _ => []
          | none, none, none => []
          | _, _, _ => ptlDetails p ++ palDetails p } := by
  obtain ⟨st, len, lay, hl, raw, eth, arp, ip, ipv6, tcp, udp, icmp, icmpv6, http, dns, tls⟩ := p
  cases arp with
  | some a =>
    obtain ⟨sp, sm, tp, tm, op⟩ := a
    cases eth <;> cases sp <;> cases sm <;> cases tp <;> cases tm <;> cases op <;>
      simp [parse_packet, arpTypeStr]
  | none =>
    cases eth <;> rcases ip with _ | ⟨s4, d4, (_ | t4)⟩ <;>
      rcases ipv6 with _ | ⟨s6, d6, (_ | h6)⟩ <;>
      simp [parse_packet, ptl_eq, pal_eq]

theorem fmtd_ethernet_isSome (i : PacketInfo) :
    (format_packet_dict i).ethernet.isSome = strTruthy i.src_mac := by
  simp only [format_packet_dict]
  split <;> simp_all

theorem fmtd_network_isSome (i : PacketInfo) :
    (format_packet_dict i).network.isSome = strTruthy i.src_ip := by
  simp only [format_packet_dict]
  split <;> simp_all

theorem fmtd_transport_isSome (i : PacketInfo) :
    (format_packet_dict i).transport.isSome = intTruthy i.src_port := by
  simp only [format_packet_dict]
  split <;> simp_all

theorem fmtd_arp_isSome (i : PacketInfo) :
    (format_packet_dict i).arp.isSome = strTruthy i.arp_sender_ip := by
  simp only [format_packet_dict]
  split <;> simp_all

theorem fmtd_application_isSome (i : PacketInfo) :
    (format_packet_dict i).application.isSome = strTruthy i.application := by
  simp only [format_packet_dict]
  split <;> simp_all

theorem eth_presence (p : Frame) (n : Int) :
    (format_packet_dict (parse_packet p n)).ethernet.isSome = ethGroupPresent p := by
  rw [fmtd_ethernet_isSome, parse_packet_eq]
  cases heq : p.eth <;> simp [heq, strTruthy, ethGroupPresent]

theorem net_presence (p : Frame) (n : Int) :
    (format_packet_dict (parse_packet p n)).network.isSome = netGroupPresent p := by
  rw [fmtd_network_isSome, parse_packet_eq]
  cases ha : p.arp <;> cases hi : p.ip <;> cases hv : p.ipv6 <;>
    simp [ha, hi, hv, strTruthy, netGroupPresent]

theorem trans_presence (p : Frame) (n : Int) :
    (format_packet_dict (parse_packet p n)).transport.isSome = transGroupPresent p := by
  rw [fmtd_transport_isSome, parse_packet_eq]
  cases ha : p.arp <;> cases hi : p.ip <;> cases hv : p.ipv6 <;>
    cases ht : p.tcp <;> cases hu : p.udp <;>
    simp [ha, hi, hv, ht, hu, intTruthy, transGroupPresent, ptlSrcPort]

theorem arp_presence (p : Frame) (n : Int) :
    (format_packet_dict (parse_packet p n)).arp.isSome = arpGroupPresent p := by
  rw [fmtd_arp_isSome, parse_packet_eq]
  cases ha : p.arp with
  | none => simp [ha, strTruthy, arpGroupPresent]
  | some a => cases hs : a.src_proto_ipv4 <;> simp [ha, hs, strTruthy, arpGroupPresent]

theorem app_presence (p : Frame) (n : Int) :
    (format_packet_dict (parse_packet p n)).application.isSome = appGroupPresent p := by
  rw [fmtd_application_isSome, parse_packet_eq]
  cases ha : p.arp <;> cases hi : p.ip <;> cases hv : p.ipv6 <;>
    cases hh : p.http <;> cases hd : p.dns <;> cases hl : p.tls <;>
    simp [ha, hi, hv, hh, hd, hl, strTruthy, appGroupPresent, applicationDetected, palApplication]

/-! ## Claim theorems -/

/-- C1 counterexample: on a structurally valid TCP/IPv4 frame whose TCP source
port is 0, the TCP transport layer is detected, yet the structured renderer
emits `transport = null` — group presence is not gated by layer detection. -/
theorem C1_counterexample :
    transportDetected tcpPortZeroFrame = true ∧
    (format_packet_dict (parse_packet tcpPortZeroFrame 1)).transport = none :=
  ⟨rfl, rfl⟩

/-- C1 (amended): in `format_packet_dict`, each optional group is present iff
the designated sentinel field stored for it is Python-truthy: `ethernet` iff the
Ethernet source MAC is non-empty, `network` iff the stored source address is
non-empty, `transport` iff a non-zero source port was stored (so never for
ICMP/ICMPv6, nor for TCP/UDP with source port 0), `arp` iff the ARP layer of
the frame carries a non-empty `src_proto_ipv4`, and `application` iff an
HTTP/DNS/TLS layer was parsed; when present a group carries all its fields,
when absent it is `null`. -/
theorem C1_group_presence (p : Frame) (n : Int) :
    (format_packet_dict (parse_packet p n)).ethernet.isSome = ethGroupPresent p ∧
    (format_packet_dict (parse_packet p n)).network.isSome = netGroupPresent p ∧
    (format_packet_dict (parse_packet p n)).transport.isSome = transGroupPresent p ∧
    (format_packet_dict (parse_packet p n)).arp.isSome = arpGroupPresent p ∧
    (format_packet_dict (parse_packet p n)).application.isSome = appGroupPresent p :=
  ⟨eth_presence p n, net_presence p n, trans_presence p n, arp_presence p n, app_presence p n⟩

/-- C4 counterexample: an IPv4 frame with no ARP layer and none of the
recognized transport layers keeps the engine-reported highest layer (here
`"GRE"`) as its protocol label; it is not defaulted to `"IP"`. -/
theorem C4_counterexample :
    greFrame.ip.isSome = true ∧ greFrame.arp = none ∧ greFrame.tcp = none ∧
    greFrame.udp = none ∧ greFrame.icmp = none ∧ greFrame.icmpv6 = false ∧
    (parse_packet greFrame 1).protocol = "GRE" ∧ "GRE" ≠ "IP" :=
  ⟨rfl, rfl, rfl, rfl, rfl, rfl, rfl, by decide⟩

/-- C4 (amended): whenever no ARP layer and none of the recognized transport
layers (TCP, UDP, ICMP, ICMPv6) are present — whether or not an IPv4/IPv6 layer
is present — the resolved protocol label is the engine-reported highest layer,
used verbatim. -/
theorem C4_protocol_verbatim (p : Frame) (n : Int)
    (harp : p.arp = none) (htcp : p.tcp = none) (hudp : p.udp = none)
    (hicmp : p.icmp = none) (hicmpv6 : p.icmpv6 = false) :
    (parse_packet p n).protocol = p.highest_layer := by
  rw [parse_packet_eq]
  cases hi : p.ip <;> cases hv : p.ipv6 <;>
    simp [harp, hi, hv, ptlProtocol, htcp, hudp, hicmp, hicmpv6]

/-- C4 witness: the amended claim applied to the concrete GRE frame. -/
theorem C4_protocol_verbatim_witness :
    (parse_packet greFrame 1).protocol = greFrame.highest_layer :=
  C4_protocol_verbatim greFrame 1 rfl rfl rfl rfl rfl

/-- C5: `parse_packet` is total over all structurally valid frames (every
combination of absent layers/fields included): it always yields a `PacketInfo`
carrying the given sequence number, timestamp and length, and fields whose
layers are absent are simply omitted (left `none`). -/
theorem C5_normalize_total (p : Frame) (n : Int) :
    (parse_packet p n).number = n ∧
    (parse_packet p n).timestamp = p.sniff_time ∧
    (parse_packet p n).length = p.length ∧
    (p.eth = none → (parse_packet p n).src_mac = none ∧ (parse_packet p n).dst_mac = none) ∧
    (p.arp = none → p.ip = none → p.ipv6 = none →
      (parse_packet p n).src_ip = none ∧ (parse_packet p n).src_port = none ∧
      (parse_packet p n).ttl = none ∧ (parse_packet p n).application = none) := by
  rw [parse_packet_eq]
  refine ⟨rfl, rfl, rfl, fun he => ?_, fun ha hi hv => ?_⟩
  · simp [he]
  · simp [ha, hi, hv]

/-- C5 witness: totality and field omission evaluated on the bare frame. -/
theorem C5_normalize_total_witness :
    (parse_packet bareFrame 1).number = 1 ∧ (parse_packet bareFrame 1).src_ip = none :=
  ⟨(C5_normalize_total bareFrame 1).1,
   ((C5_normalize_total bareFrame 1).2.2.2.2 rfl rfl rfl).1⟩

theorem icmpTypeStr_ne_empty (t : String) : icmpTypeStr t ≠ "" := by
  unfold icmpTypeStr
  split_ifs <;> simp [String.ext_iff]

/-- C10: for an IPv4 frame whose transport resolves to ICMP (no TCP/UDP) and
that carries no HTTP/DNS/TLS layer, the normalizer stores the mapped ICMP type
string under `icmp_type` in the details but leaves `application` unset, so the
structured renderer emits `application = null` (the ICMP string is absent from
the mapping) while the text renderer shows the string on its protocol line. -/
theorem C10_icmp_detail (p : Frame) (n : Int) (ipl : IpL) (ic : IcmpL) (t : String)
    (harp : p.arp = none) (hip : p.ip = some ipl)
    (hsrc : ipl.src ≠ "") (hdst : ipl.dst ≠ "")
    (htcp : p.tcp = none) (hudp : p.udp = none) (hicmp : p.icmp = some ic)
    (hty : ic.type = some t)
    (hhttp : p.http = none) (hdns : p.dns = none) (htls : p.tls = none) :
    (parse_packet p n).application = none ∧
    (parse_packet p n).application_details = [("icmp_type", icmpTypeStr t)] ∧
    (format_packet_dict (parse_packet p n)).application = none ∧
    ("  Protocol: ICMP | " ++ icmpTypeStr t) ∈ format_packet_text_lines (parse_packet p n) := by
  rw [parse_packet_eq]
  refine ⟨?_, ?_, ?_, ?_⟩
  · simp [harp, hip, palApplication, hhttp, hdns, htls]
  · simp [harp, hip, ptlDetails, palDetails, htcp, hudp, hicmp, hty, hhttp, hdns, htls]
  · simp [format_packet_dict, harp, hip, strTruthy, palApplication, hhttp, hdns, htls]
  · simp only [format_packet_text_lines, harp, hip, ptlProtocol, ptlDetails, palDetails,
      palApplication, htcp, hudp, hicmp, hty, hhttp, hdns, htls, strTruthy]
    simp [hsrc, hdst, dictGet, icmpTypeStr_ne_empty t]

/-- C10 witness: the theorem evaluated on the concrete ICMP echo-request frame. -/
theorem C10_icmp_detail_witness :
    (parse_packet icmpPingFrame 5).application = none ∧
    ("  Protocol: ICMP | " ++ icmpTypeStr "8") ∈
      format_packet_text_lines (parse_packet icmpPingFrame 5) := by
  have h := C10_icmp_detail icmpPingFrame 5
    { src := "10.0.0.1", dst := "10.0.0.2", ttl := some 64 } { type := some "8" } "8"
    rfl rfl (by decide) (by decide) rfl rfl rfl rfl rfl rfl rfl
  exact ⟨h.1, h.2.2.2⟩

theorem captureLoop_err_from (ext : Nat → Bool) (cb : Nat → CbOutcome) (N : Nat) :
    ∀ (src : List SItem) (s : WorkerSt) (m : String),
      (captureLoop ext cb N src s).err = some m →
      (∃ k, (cb k).raises = some m) ∨ SItem.ierr m ∈ src := by
  intro src
  induction src with
  | nil => intro s m h; simp [captureLoop] at h
  | cons item rest ih =>
    intro s m h
    cases item with
    | ierr msg =>
      simp only [captureLoop] at h
      split at h
      · simp at h
      · split at h
        · simp at h
        · simp at h
          simp [h]
    | pkt id =>
      simp only [captureLoop] at h
      split at h
      · simp at h
      · cases hcb : (cb (s.count + 1)).raises with
        | some m2 =>
          simp only [hcb] at h
          simp at h
          exact Or.inl ⟨s.count + 1, by rw [hcb, h]⟩
        | none =>
          simp only [hcb] at h
          split at h
          · simp at h
          · split at h
            · simp at h
            · rcases ih _ m h with hk | hmem
              · exact Or.inl hk
              · exact Or.inr (by simp [hmem])

theorem captureLoop_ends (ext : Nat → Bool) (cb : Nat → CbOutcome) (N : Nat)
    (hmono : ∀ i j, i ≤ j → ext i = true → ext j = true) :
    ∀ (src : List SItem) (s : WorkerSt),
      s.internalStop = false → (N = 0 ∨ s.count < N) →
      (captureLoop ext cb N src s).internalStop = false →
      ext (captureLoop ext cb N src s).finalCheckIdx = false →
      (captureLoop ext cb N src s).err = none →
      (0 < N ∧ (captureLoop ext cb N src s).count = N) ∨
      (captureLoop ext cb N src s).count = s.count + countPkts src := by
  intro src
  induction src with
  | nil =>
    intro s _ _ _ _ _
    right
    simp [captureLoop, countPkts]
  | cons item rest ih =>
    intro s hstop hinv hrstop hrext hrerr
    obtain ⟨cnt, sq, bf, istop, ci⟩ := s
    simp only [WorkerSt.internalStop] at hstop
    subst hstop
    replace hinv : N = 0 ∨ cnt < N := by simpa using hinv
    cases item with
    | ierr msg =>
      simp only [captureLoop, Bool.false_or] at hrstop hrext hrerr ⊢
      by_cases hsp1 : ext ci = true
      · rw [if_pos hsp1] at hrext
        exact absurd (hmono ci (ci + 1) (Nat.le_succ _) hsp1) (by simp_all)
      · rw [if_neg hsp1] at hrerr hrext
        by_cases hsp2 : ext (ci + 1) = true
        · rw [if_pos hsp2] at hrext
          exact absurd (hmono (ci + 1) (ci + 1 + 1) (Nat.le_succ _) hsp2) (by simp_all)
        · rw [if_neg hsp2] at hrerr
          simp at hrerr
    | pkt id =>
      simp only [captureLoop, Bool.false_or] at hrstop hrext hrerr ⊢
      by_cases hsp1 : ext ci = true
      · rw [if_pos hsp1] at hrext
        exact absurd (hmono ci (ci + 1) (Nat.le_succ _) hsp1) (by simp_all)
      · rw [if_neg hsp1] at hrerr hrext hrstop ⊢
        cases hcb : (cb (cnt + 1)).raises with
        | some m => simp [hcb] at hrerr
        | none =>
          simp only [hcb] at hrerr hrext hrstop ⊢
          by_cases hsp3 : ((cb (cnt + 1)).callsStop || ext (ci + 1)) = true
          · rw [if_pos hsp3] at hrext hrstop
            rcases Bool.or_eq_true_iff.mp hsp3 with hcs | hx
            · simp [hcs] at hrstop
            · exact absurd (hmono (ci + 1) (ci + 1 + 1) (Nat.le_succ _) hx) (by simp_all)
          · rw [if_neg hsp3] at hrerr hrext hrstop ⊢
            by_cases hlim : (decide (N > 0) && decide (cnt + 1 ≥ N)) = true
            · rw [if_pos hlim] at hrext hrstop ⊢
              simp at hlim
              left
              refine ⟨by omega, by simp; omega⟩
            · rw [if_neg hlim] at hrerr hrext hrstop ⊢
              simp at hlim
              have hcs : (cb (cnt + 1)).callsStop = false := by
                simp at hsp3
                exact hsp3.1
              rw [hcs] at hrerr hrext hrstop ⊢
              rcases ih _ (by simp) (by simp; omega) hrstop hrext hrerr with hleft | hright
              · exact Or.inl hleft
              · right
                simp at hright
                simp [countPkts, hright]
                omega



theorem seqUpTo_succ (n : Nat) : seqUpTo (n + 1) = seqUpTo n ++ [n + 1] := by
  simp [seqUpTo, List.range_succ]

theorem captureLoop_seqs (ext : Nat → Bool) (cb : Nat → CbOutcome) (N : Nat) :
    ∀ (src : List SItem) (s : WorkerSt), s.seqs = seqUpTo s.count →
      (captureLoop ext cb N src s).seqs = seqUpTo (captureLoop ext cb N src s).count := by
  intro src
  induction src with
  | nil => intro s h; simpa [captureLoop] using h
  | cons item rest ih =>
    intro s h
    simp only [captureLoop]
    split
    · simpa using h
    · cases item with
      | ierr msg => simpa using h
      | pkt id =>
        cases hcb : (cb (s.count + 1)).raises with
        | some m => simp [hcb, h, seqUpTo_succ]
        | none =>
          simp only [hcb]
          split
          · simp [h, seqUpTo_succ]
          · split
            · simp [h, seqUpTo_succ]
            · exact ih _ (by simp [h, seqUpTo_succ])

theorem captureLoop_buffer (ext : Nat → Bool) (cb : Nat → CbOutcome) (N : Nat) :
    ∀ (src : List SItem) (s : WorkerSt), s.buffer.length = s.count →
      (captureLoop ext cb N src s).buffer.length = (captureLoop ext cb N src s).count := by
  intro src
  induction src with
  | nil => intro s h; simpa [captureLoop] using h
  | cons item rest ih =>
    intro s h
    simp only [captureLoop]
    split
    · simpa using h
    · cases item with
      | ierr msg => simpa using h
      | pkt id =>
        cases hcb : (cb (s.count + 1)).raises with
        | some m => simp [hcb, h]
        | none =>
          simp only [hcb]
          split
          · simp [h]
          · split
            · simp [h]
            · exact ih _ (by simp [h])

theorem captureLoop_count_limit (ext : Nat → Bool) (cb : Nat → CbOutcome) (N : Nat)
    (hext : ∀ i, ext i = false) (hcb : ∀ k, cb k = ⟨false, none⟩) :
    ∀ (pre post : List SItem) (s : WorkerSt), (∀ x ∈ pre, isPkt x = true) →
      s.internalStop = false → s.count + pre.length = N → s.count < N →
      (captureLoop ext cb N (pre ++ post) s).count = N := by
  intro pre
  induction pre with
  | nil =>
    intro post s _ _ hlen hlt
    simp at hlen
    omega
  | cons a pre ih =>
    intro post s hpk hstop hlen hlt
    have ha : isPkt a = true := hpk a (by simp)
    cases a with
    | ierr m => simp [isPkt] at ha
    | pkt id =>
      simp only [List.cons_append, captureLoop, hstop, hext, Bool.or_self, Bool.false_or,
        if_neg Bool.false_ne_true]
      simp only [hcb]
      by_cases hge : N ≤ s.count + 1
      · have hcond : (decide (N > 0) && decide (s.count + 1 ≥ N)) = true := by
          simp; omega
        simp [hext, hcond]
        omega
      · have hcond : (decide (N > 0) && decide (s.count + 1 ≥ N)) = false := by
          simp; omega
        simp only [hext, Bool.or_self, Bool.false_or, if_neg Bool.false_ne_true, hcond]
        exact ih post _ (fun x hx => hpk x (by simp [hx])) (by simp)
          (by simp at hlen ⊢; omega) (by simp; omega)

/-- C7: in every session the sequence numbers passed to the callback are
exactly `1, 2, ..., packets_captured`, in that order, with no gaps or
repeats. -/
theorem C7_sequence_numbers (openErr : Option String) (src : List SItem)
    (cb : Nat → CbOutcome) (ext : Nat → Bool) (N : Nat) (timedOut : Bool) :
    (runWorker openErr src cb ext N).seqs =
      seqUpTo (runStart openErr src cb ext N timedOut).packets_captured := by
  have h : (runStart openErr src cb ext N timedOut).packets_captured =
      (runWorker openErr src cb ext N).count := rfl
  rw [h]
  cases openErr with
  | some m => simp [runWorker, seqUpTo]
  | none => exact captureLoop_seqs ext cb N src _ (by simp [seqUpTo])

/-- C3 counterexample: after a two-frame session the worker state retains the
`_packets` buffer `[7, 8]` — a growing collection of past frames. -/
theorem C3_counterexample :
    (runWorker none [SItem.pkt 7, SItem.pkt 8] cbOk extFalse 0).buffer = [7, 8] ∧
    ([7, 8] : List Nat) ≠ [] :=
  ⟨rfl, by decide⟩

/-- C3 (amended): the worker appends every captured frame to the internal
`_packets` list, so at every exit the buffer holds exactly one entry per
counted frame (it keeps references to all past frames of the session and is
only reset by the next `start` call). -/
theorem C3_buffer_retained (openErr : Option String) (src : List SItem)
    (cb : Nat → CbOutcome) (ext : Nat → Bool) (N : Nat) :
    (runWorker openErr src cb ext N).buffer.length =
      (runWorker openErr src cb ext N).count := by
  cases openErr with
  | some m => rfl
  | none => exact captureLoop_buffer ext cb N src _ rfl

/-- C6: with `packet_count = N > 0`, a source offering at least `N` frames
before the timeout, no stop request and a callback that never raises, the
session ends with exactly `N` packets captured and no timeout flag. -/
theorem C6_packet_count_reached (pre post : List SItem) (cb : Nat → CbOutcome)
    (ext : Nat → Bool) (N : Nat) (hN : 0 < N) (hlen : pre.length = N)
    (hpre : ∀ x ∈ pre, isPkt x = true) (hext : ∀ i, ext i = false)
    (hcb : ∀ k, cb k = ⟨false, none⟩) :
    (runStart none (pre ++ post) cb ext N false).packets_captured = N ∧
    (runStart none (pre ++ post) cb ext N false).stopped_by_timeout = false := by
  refine ⟨?_, rfl⟩
  show (runWorker none (pre ++ post) cb ext N).count = N
  exact captureLoop_count_limit ext cb N hext hcb pre post _ hpre rfl
    (by simp [hlen]) (by simpa using hN)

/-- C6 witness: a three-frame source with `packet_count = 2`. -/
theorem C6_packet_count_reached_witness :
    (runStart none ([SItem.pkt 1, SItem.pkt 2] ++ [SItem.pkt 3]) cbOk extFalse 2
        false).packets_captured = 2 ∧
    (runStart none ([SItem.pkt 1, SItem.pkt 2] ++ [SItem.pkt 3]) cbOk extFalse 2
        false).stopped_by_timeout = false :=
  C6_packet_count_reached [SItem.pkt 1, SItem.pkt 2] [SItem.pkt 3] cbOk extFalse 2
    (by decide) (by decide) (by decide) (fun _ => rfl) (fun _ => rfl)

/-- C2 counterexample: when opening the capture handle fails, `start` does not
raise — it returns a fully formed `CaptureStats` with the failure message
captured in `error` (and zero packets), contradicting the claim that no
`CaptureStats` is produced. -/
theorem C2_counterexample :
    runStart (some "open failed") [] cbOk extFalse 5 false =
      { packets_captured := 0, stopped_by_user := false, stopped_by_timeout := false,
        error := some "open failed" } :=
  rfl

/-- C2 (amended): an open failure does not propagate: the worker catches it and
`start` returns a `CaptureStats` with `packets_captured = 0` and `error` set to
the failure message (when no stop was already requested); no failure class
escapes as an exception — `start` is total. -/
theorem C2_open_error_captured (m : String) (src : List SItem) (cb : Nat → CbOutcome)
    (ext : Nat → Bool) (N : Nat) (timedOut : Bool) (h0 : ext 0 = false) :
    (runStart (some m) src cb ext N timedOut).error = some m ∧
    (runStart (some m) src cb ext N timedOut).packets_captured = 0 := by
  constructor
  · show (if ext 0 then none else some m) = some m
    simp [h0]
  · rfl

/-- C2 witness: the amended claim evaluated on a concrete failing open. -/
theorem C2_open_error_captured_witness :
    (runStart (some "boom") [] cbOk extFalse 3 false).error = some "boom" ∧
    (runStart (some "boom") [] cbOk extFalse 3 false).packets_captured = 0 :=
  C2_open_error_captured "boom" [] cbOk extFalse 3 false rfl

/-- C9 counterexample: an exception raised by the frame iterator mid-stream —
neither while opening the handle nor by the callback — is still recorded as
`error` when no stop was requested. -/
theorem C9_counterexample :
    (∀ k, (cbOk k).raises = none) ∧
    (runWorker none [SItem.ierr "boom"] cbOk extFalse 5).err = some "boom" :=
  ⟨fun _ => rfl, rfl⟩

/-- C9 (amended): every recorded error originates from the open step, from the
callback, or from the frame iterator; open/iterator errors are suppressed when
the stop event is already set at the handler check, while a callback error is
always recorded — even when the callback itself requested a stop first. -/
theorem C9_error_provenance :
    (∀ (openErr : Option String) (src : List SItem) (cb : Nat → CbOutcome)
       (ext : Nat → Bool) (N : Nat) (m : String),
       (runWorker openErr src cb ext N).err = some m →
       openErr = some m ∨ (∃ k, (cb k).raises = some m) ∨ SItem.ierr m ∈ src) ∧
    (∀ (m : String) (src : List SItem) (cb : Nat → CbOutcome) (N : Nat),
       (runWorker (some m) src cb (fun _ => true) N).err = none) ∧
    (∀ (m : String) (id N : Nat),
       (runWorker none [SItem.pkt id] (fun _ => ⟨true, some m⟩) (fun _ => false) N).err =
         some m) := by
  refine ⟨?_, fun m src cb N => rfl, fun m id N => rfl⟩
  intro openErr src cb ext N m h
  cases openErr with
  | some m2 =>
    left
    simp only [runWorker] at h
    split at h
    · simp at h
    · simp at h
      rw [h]
  | none =>
    right
    exact captureLoop_err_from ext cb N src _ m h

/-- C9 witness: provenance applied to a concrete open failure. -/
theorem C9_error_provenance_witness :
    (some "x" : Option String) = some "x" ∨ (∃ k, (cbOk k).raises = some "x") ∨
      SItem.ierr "x" ∈ ([] : List SItem) :=
  C9_error_provenance.1 (some "x") [] cbOk extFalse 3 "x" rfl

/-- C8 counterexample: a session in which the callback raises on the first
frame ends with `stopped_by_user = false` and `stopped_by_timeout = false`,
yet the packet count (5) was not reached and the source (2 frames) was not
exhausted — the both-flags-false case also covers error exits. -/
theorem C8_counterexample :
    (runStart none [SItem.pkt 10, SItem.pkt 11] (fun _ => ⟨false, some "boom"⟩)
        extFalse 5 false).stopped_by_user = false ∧
    (runStart none [SItem.pkt 10, SItem.pkt 11] (fun _ => ⟨false, some "boom"⟩)
        extFalse 5 false).stopped_by_timeout = false ∧
    (runStart none [SItem.pkt 10, SItem.pkt 11] (fun _ => ⟨false, some "boom"⟩)
        extFalse 5 false).packets_captured ≠ 5 ∧
    (runStart none [SItem.pkt 10, SItem.pkt 11] (fun _ => ⟨false, some "boom"⟩)
        extFalse 5 false).packets_captured ≠ countPkts [SItem.pkt 10, SItem.pkt 11] := by
  refine ⟨rfl, rfl, by decide, by decide⟩

/-- C8 (amended): `stopped_by_user` and `stopped_by_timeout` are mutually
exclusive; and when both are false and no error was recorded, the session ended
because the packet count was reached or the source was exhausted (a recorded
error is the third both-flags-false exit). -/
theorem C8_stop_flags (openErr : Option String) (src : List SItem) (cb : Nat → CbOutcome)
    (ext : Nat → Bool) (N : Nat) (timedOut : Bool)
    (hmono : ∀ i j, i ≤ j → ext i = true → ext j = true) :
    ¬((runStart openErr src cb ext N timedOut).stopped_by_user = true ∧
      (runStart openErr src cb ext N timedOut).stopped_by_timeout = true) ∧
    ((runStart openErr src cb ext N timedOut).stopped_by_user = false →
     (runStart openErr src cb ext N timedOut).stopped_by_timeout = false →
     (runStart openErr src cb ext N timedOut).error = none →
     (0 < N ∧ (runStart openErr src cb ext N timedOut).packets_captured = N) ∨
     (runStart openErr src cb ext N timedOut).packets_captured = countPkts src) := by
  constructor
  · rintro ⟨hu, ht⟩
    have ht' : timedOut = true := ht
    have hu' : ((timedOut || (runWorker openErr src cb ext N).internalStop ||
        ext (runWorker openErr src cb ext N).finalCheckIdx) && !timedOut) = true := hu
    rw [ht'] at hu'
    simp at hu'
  · intro hu ht herr
    have ht' : timedOut = false := ht
    subst ht'
    have hu' : (((runWorker openErr src cb ext N).internalStop ||
        ext (runWorker openErr src cb ext N).finalCheckIdx)) = false := by
      have h2 : ((false || (runWorker openErr src cb ext N).internalStop ||
          ext (runWorker openErr src cb ext N).finalCheckIdx) && !false) = false := hu
      simpa using h2
    have his : (runWorker openErr src cb ext N).internalStop = false := by
      rcases Bool.or_eq_false_iff.mp hu' with ⟨h1, _⟩
      exact h1
    have hex : ext (runWorker openErr src cb ext N).finalCheckIdx = false := by
      rcases Bool.or_eq_false_iff.mp hu' with ⟨_, h2⟩
      exact h2
    have herr' : (runWorker openErr src cb ext N).err = none := herr
    cases openErr with
    | some m =>
      by_cases h0 : ext 0 = true
      · have h1 : ext 1 = true := hmono 0 1 (by omega) h0
        have hfc : (runWorker (some m) src cb ext N).finalCheckIdx = 1 := rfl
        rw [hfc] at hex
        rw [h1] at hex
        simp at hex
      · have hsome : (runWorker (some m) src cb ext N).err = some m := by
          simp only [runWorker]
          simp [h0]
        rw [herr'] at hsome
        simp at hsome
    | none =>
      have hres := captureLoop_ends ext cb N hmono src ⟨0, [], [], false, 0⟩ rfl
        (by simp; omega) his hex herr'
      simpa using hres

/-- C8 witness: the amended claim evaluated on a one-frame exhausted session. -/
theorem C8_stop_flags_witness :
    (0 < 5 ∧ (runStart none [SItem.pkt 4] cbOk extFalse 5 false).packets_captured = 5) ∨
    (runStart none [SItem.pkt 4] cbOk extFalse 5 false).packets_captured =
      countPkts [SItem.pkt 4] :=
  (C8_stop_flags none [SItem.pkt 4] cbOk extFalse 5 false (fun _ _ _ h => h)).2 rfl rfl rfl

end Capstone
